import Mathlib

/-!
Shallow embedding of `daynight.py`, the physics/collision/state-update core of
the day/night ball simulation.  Pure functions of the source (`advance_point`,
`ball_rect_collision`, `run_ball`, `run`, `GameState.__init__`) are translated
to Lean functions over an arbitrary linear ordered field (the Python floats),
with the grid-mutating loop of `run_ball` rendered as explicit state passing.
-/

namespace DayNight

/-- Two-dimensional vector (`pygame.math.Vector2`): an ordered pair of coordinates. -/
structure Vec (α : Type) where
  x : α
  y : α
deriving DecidableEq

/-- Axis-aligned rectangle (`pygame.Rect`): left, top, width, height.
`pygame.Rect` stores integers; all rectangles built by the program have
integer coordinates (multiples of `RECTSIZE = 25`), embedded into the
coordinate field. -/
structure Rect (α : Type) where
  left : α
  top : α
  width : α
  height : α
deriving DecidableEq

variable {α : Type} [LinearOrderedField α]

/-- Pygame semantics: `Rect.right = left + width`. -/
def Rect.right (r : Rect α) : α := r.left + r.width

/-- Pygame semantics: `Rect.bottom = top + height`. -/
def Rect.bottom (r : Rect α) : α := r.top + r.height

/-- Pygame `Rect.move(dx, dy)`: translated copy. -/
def Rect.move (r : Rect α) (dx dy : α) : Rect α :=
  { r with left := r.left + dx, top := r.top + dy }

/-- Source constant `GRIDX = 10`. -/
def GRIDX : Nat := 10

/-- Source constant `GRIDY = 10`. -/
def GRIDY : Nat := 10

/-- Source constant `RECTSIZE = 25.0`. -/
def RECTSIZE : α := 25

/-- Source constant `BALLSIZE = 10.0` (the ball radius). -/
def BALLSIZE : α := 10

/-- Source constant `BALLSPEED = 0.5`. -/
def BALLSPEED : α := 1 / 2

/-- Dot product of two vectors. -/
def Vec.dot (a b : Vec α) : α := a.x * b.x + a.y * b.y

/-- Squared Euclidean norm of a vector. -/
def sqNorm (v : Vec α) : α := v.x * v.x + v.y * v.y

/-- Source `pygame.math.Vector2.reflect(normal)`: pygame first normalizes the normal
when its squared length is not exactly `1`, then returns
`v - 2*(v . n)*n`.  Every normal this program passes to `reflect` is one of
`(±1,0)`, `(0,±1)`, of squared length exactly `1`, so the normalization step
is the identity and the formula below is the exact pygame computation. -/
def Vec.reflect (v n : Vec α) : Vec α :=
  ⟨v.x - 2 * (Vec.dot v n) * n.x, v.y - 2 * (Vec.dot v n) * n.y⟩

/-- Source `pygame.math.Vector2.normalize()`: divide by the Euclidean length
(only meaningful over `ℝ`, where the source's `sqrt` lives). -/
noncomputable def normalize (v : Vec ℝ) : Vec ℝ :=
  let l := Real.sqrt (v.x * v.x + v.y * v.y)
  ⟨v.x / l, v.y / l⟩

/-- Source `advance_point(point, direction, speed, dt) = point + direction * speed * dt`. -/
def advance_point (point direction : Vec α) (speed dt : α) : Vec α :=
  ⟨point.x + direction.x * speed * dt, point.y + direction.y * speed * dt⟩

/-- Lines 86-95 of the source: clamp `center.x` to `[rect.left, rect.right]`
(giving `test_x`) and record `xnormal`: `(-1,0)` when the center is left of
the rectangle, `(1,0)` when it is right of it, none otherwise. -/
def clampNormalX (center : Vec α) (rect : Rect α) : α × Option (Vec α) :=
  if center.x < rect.left then (rect.left, some ⟨-1, 0⟩)
  else if center.x > rect.right then (rect.right, some ⟨1, 0⟩)
  else (center.x, none)

/-- Lines 97-103 of the source: clamp `center.y` to `[rect.top, rect.bottom]`
(giving `test_y`) and record `ynormal`.  NOTE: the source constructs both of
these intermediate normals on the x axis — `Vector2(1, 0)` above the top edge
and `Vector2(-1, 0)` below the bottom edge — exactly as embedded here. -/
def clampNormalY (center : Vec α) (rect : Rect α) : α × Option (Vec α) :=
  if center.y < rect.top then (rect.top, some ⟨1, 0⟩)
  else if center.y > rect.bottom then (rect.bottom, some ⟨-1, 0⟩)
  else (center.y, none)

/-- Lines 105-107 of the source: squared distance from the center to the
nearest point `(test_x, test_y)` of the rectangle,
`dist_x*dist_x + dist_y*dist_y`. -/
def distSq (center : Vec α) (rect : Rect α) : α :=
  let dist_x := center.x - (clampNormalX center rect).1
  let dist_y := center.y - (clampNormalY center rect).1
  dist_x * dist_x + dist_y * dist_y

/-- Source `ball_rect_collision(center, radius, rect)` (lines 80-122).  The source
compares `math.sqrt(distSq) > radius`; for the nonnegative radius used at
every call site (`BALLSIZE = 10`) this is equivalent to the square-free
comparison `distSq > radius*radius` embedded here (lemma
`sqrt_gt_iff_sq_gt` below proves the equivalence over `ℝ`).  The final
normal selection and the `(1, 0)` fallback follow lines 112-122. -/
def ball_rect_collision (center : Vec α) (radius : α) (rect : Rect α) :
    Option (Vec α) :=
  if distSq center rect > radius * radius then none
  else
    let normal : Option (Vec α) :=
      if rect.left ≤ center.x ∧ center.x ≤ rect.right then
        (clampNormalY center rect).2
      else if rect.top ≤ center.y ∧ center.y ≤ rect.bottom then
        (clampNormalX center rect).2
      else none
    some (normal.getD ⟨1, 0⟩)

/-- The grid: an ordered list of rows, row `j` holding the cells
`(rect, state)` for columns `i = 0, ..., GRIDX-1`; `grid[j][i]` in the
source.  (The source allocates the outer list with `GRIDX` rows of `GRIDY`
cells and then indexes it `[j][i]`; since `GRIDX = GRIDY = 10` the two
layouts coincide, and the row-indexed form is used here.) -/
abbrev Grid (α : Type) := List (List (Rect α × Bool))

/-- Read `grid[j][i]`.  The source indexes unconditionally and would raise
an IndexError on an out-of-range access; the program's grids are always
`GRIDY x GRIDX` (see `gridWF`), so that path is unreachable there.  The
embedding totalizes the read with `none`; every concrete scenario below uses
a full `10 x 10` grid so the `none` path is never exercised. -/
def getCell (g : Grid α) (j i : Nat) : Option (Rect α × Bool) :=
  (g.get? j).bind fun row => row.get? i

/-- Well-formedness of a grid as the program maintains it: `GRIDY` rows of
`GRIDX` cells each (`grid[j][i]` is then always in range). -/
def gridWF (g : Grid α) : Prop :=
  g.length = GRIDY ∧ ∀ row ∈ g, row.length = GRIDX

/-- Write `grid[j][i] = c` (the in-place update of line 158; `List.set` is
the identity when the index is out of range, which never happens in the
source). -/
def setCell (g : Grid α) (j i : Nat) (c : Rect α × Bool) : Grid α :=
  g.set j (((g.get? j).getD []).set i c)

/-- The grid built by `GameState.__init__` (lines 26-31): cell `(j, i)` has
rectangle `Rect(0, 0, 25, 25).move(25*i, 25*j)` and state `i < GRIDX/2`
(`True`, "day", on the left half of columns). -/
def initGrid : Grid α :=
  (List.range GRIDY).map (fun (j : Nat) =>
    (List.range GRIDX).map (fun (i : Nat) =>
      ((Rect.mk 0 0 RECTSIZE RECTSIZE).move (RECTSIZE * (i : α)) (RECTSIZE * (j : α)),
       decide (i < GRIDX / 2))))

/-- Lines 135-143 of `run_ball`: the world-boundary check on the tentative
new center, in the source's fixed `if/elif` order (left, top, right,
bottom).  The source applies `.normalize()` to each normal; on these unit
vectors that is the identity (lemma `normalize_unit_axis` below). -/
def boundaryNormal (new_center : Vec α) : Option (Vec α) :=
  if new_center.x - BALLSIZE < 0 then some ⟨1, 0⟩
  else if new_center.y - BALLSIZE < 0 then some ⟨0, -1⟩
  else if new_center.x + BALLSIZE > RECTSIZE * (GRIDX : α) then some ⟨-1, 0⟩
  else if new_center.y + BALLSIZE > RECTSIZE * (GRIDY : α) then some ⟨0, 1⟩
  else none

/-- The inner loop of lines 150-159 (`for i in range(GRIDX)` inside row
`j`), as structural recursion over the remaining column indices.  State is
`(grid, new_center, new_direction)`.  A cell whose state differs from
`ball_type` is skipped (`continue`, lines 152-153); on the first cell of
the row whose collision test (against the original `center`) returns a
normal, the direction is reflected, the position is recomputed from the
original `center`, the cell's state is flipped in place, and the `break` of
line 159 ends THIS ROW's loop only.  (The `getCell = none` case totalizes
the source's IndexError path; it is unreachable on the program's
`GRIDY x GRIDX` grids.) -/
def scanRow (center : Vec α) (ball_type : Bool) (dt : α) (j : Nat) :
    List Nat → Grid α → Vec α → Vec α → Grid α × Vec α × Vec α
  | [], g, nc, nd => (g, nc, nd)
  | i :: rest, g, nc, nd =>
    match getCell g j i with
    | none => scanRow center ball_type dt j rest g nc nd
    | some (rect, cell_type) =>
      if cell_type ≠ ball_type then scanRow center ball_type dt j rest g nc nd
      else
        match ball_rect_collision center BALLSIZE rect with
        | none => scanRow center ball_type dt j rest g nc nd
        | some normal =>
          let nd2 := Vec.reflect nd normal
          (setCell g j i (rect, !cell_type),
           advance_point center nd2 BALLSPEED dt, nd2)

/-- The outer loop of line 149 (`for j in range(GRIDY)`): each row is
scanned in turn with `scanRow`, threading grid, center and direction.  The
source's `break` exits only the inner loop, so after a hit in row `j` the
scan CONTINUES with row `j+1`; one cell may be flipped per row in a single
tick. -/
def scanRows (center : Vec α) (ball_type : Bool) (dt : α) :
    List Nat → Grid α → Vec α → Vec α → Grid α × Vec α × Vec α
  | [], g, nc, nd => (g, nc, nd)
  | j :: rows, g, nc, nd =>
    let s := scanRow center ball_type dt j (List.range GRIDX) g nc nd
    scanRows center ball_type dt rows s.1 s.2.1 s.2.2

/-- The scan predicate implicit in lines 149-159: cell `(j, i)` is acted on
(when reached) iff its state equals `ball_type` and the collision test on
the original center reports a hit. -/
def scanPred (center : Vec α) (ball_type : Bool) (g : Grid α)
    (p : Nat × Nat) : Bool :=
  match getCell g p.1 p.2 with
  | none => false
  | some (rect, cell_type) =>
    cell_type == ball_type && (ball_rect_collision center BALLSIZE rect).isSome

/-- The cell row `j`'s scan flips, if any: the first column index of that
row satisfying `scanPred`. -/
def rowHit (center : Vec α) (ball_type : Bool) (g : Grid α) (j : Nat) :
    Option Nat :=
  (List.range GRIDX).find? (fun i => scanPred center ball_type g (j, i))

/-- Source `run_ball(center, direction, grid, ball_type, dt)` (lines 125-161),
returning the updated grid together with `(new_center, new_direction)`. -/
def run_ball (center direction : Vec α) (grid : Grid α) (ball_type : Bool)
    (dt : α) : Grid α × Vec α × Vec α :=
  let new_center := advance_point center direction BALLSPEED dt
  match boundaryNormal new_center with
  | some normal =>
    let nd := Vec.reflect direction normal
    scanRows center ball_type dt (List.range GRIDY) grid
      (advance_point center nd BALLSPEED dt) nd
  | none =>
    scanRows center ball_type dt (List.range GRIDY) grid new_center direction

/-- The simulation state (`GameState`): flags, grid, both balls' centers and
directions. -/
structure GameState (α : Type) where
  running : Bool
  paused : Bool
  grid : Grid α
  dayball : Vec α
  nightball : Vec α
  dayball_direction : Vec α
  nightball_direction : Vec α

/-- Source `GameState.__init__` (lines 22-40): paused, initial grid, balls offset
by a quarter of the grid width from the center, diagonal unit directions. -/
noncomputable def initState : GameState ℝ :=
  let gridsize : Vec ℝ := ⟨(GRIDX : ℝ) * RECTSIZE, (GRIDY : ℝ) * RECTSIZE⟩
  { running := true
    paused := true
    grid := initGrid
    dayball := ⟨gridsize.x / 2 + gridsize.x / 4, gridsize.y / 2⟩
    nightball := ⟨gridsize.x / 2 - gridsize.x / 4, gridsize.y / 2⟩
    dayball_direction := normalize ⟨1, 1⟩
    nightball_direction := normalize ⟨-1, -1⟩ }

/-- Source `run(state, dt)` (lines 164-172): no-op when paused, otherwise advance
the day ball first (updating the shared grid), then the night ball on the
grid the day ball left behind. -/
def run (state : GameState α) (dt : α) : GameState α :=
  if state.paused then state
  else
    let d := run_ball state.dayball state.dayball_direction state.grid true dt
    let n := run_ball state.nightball state.nightball_direction d.1 false dt
    { state with
      grid := n.1
      dayball := d.2.1
      dayball_direction := d.2.2
      nightball := n.2.1
      nightball_direction := n.2.2 }

/-! ### Helper lemmas -/

theorem distSq_nonneg (center : Vec α) (rect : Rect α) : 0 ≤ distSq center rect :=
  add_nonneg (mul_self_nonneg _) (mul_self_nonneg _)

/-- Over the reals, the source's comparison `math.sqrt d > radius` agrees with
the square-free comparison used in the embedding, for nonnegative radii. -/
theorem sqrt_gt_iff_sq_gt (d r : ℝ) (hd : 0 ≤ d) (hr : 0 ≤ r) :
    Real.sqrt d > r ↔ d > r * r := by
  have h1 := Real.mul_self_sqrt hd
  have h2 := Real.sqrt_nonneg d
  constructor
  · intro h
    nlinarith
  · intro h
    by_contra hle
    push_neg at hle
    nlinarith

/-- Reflection across a normal of squared length one preserves the squared norm. -/
theorem reflect_sqNorm (v n : Vec α) (h : n.x * n.x + n.y * n.y = 1) :
    sqNorm (Vec.reflect v n) = sqNorm v := by
  simp only [sqNorm, Vec.reflect, Vec.dot]
  linear_combination (4 * (v.x * n.x + v.y * n.y) ^ 2) * h

/-- The intermediate x-side normal is one of none, `(-1,0)`, `(1,0)`. -/
theorem clampNormalX_snd (center : Vec α) (rect : Rect α) :
    (clampNormalX center rect).2 = none ∨
      (clampNormalX center rect).2 = some ⟨-1, 0⟩ ∨
      (clampNormalX center rect).2 = some ⟨1, 0⟩ := by
  simp only [clampNormalX]
  split_ifs <;> simp

/-- The intermediate y-side normal is one of none, `(1,0)`, `(-1,0)`:
the source builds both of them on the x axis. -/
theorem clampNormalY_snd (center : Vec α) (rect : Rect α) :
    (clampNormalY center rect).2 = none ∨
      (clampNormalY center rect).2 = some ⟨1, 0⟩ ∨
      (clampNormalY center rect).2 = some ⟨-1, 0⟩ := by
  simp only [clampNormalY]
  split_ifs <;> simp

/-- Any normal the collision resolver returns is `(1,0)` or `(-1,0)`. -/
theorem collision_normal_cases (center : Vec α) (radius : α) (rect : Rect α)
    (n : Vec α) (h : ball_rect_collision center radius rect = some n) :
    n = ⟨1, 0⟩ ∨ n = ⟨-1, 0⟩ := by
  rcases clampNormalY_snd center rect with hy | hy | hy <;>
    rcases clampNormalX_snd center rect with hx | hx | hx <;>
    simp only [ball_rect_collision, hy, hx] at h <;>
    split_ifs at h <;>
    simp_all

/-- Any normal the boundary check returns is one of the four axis units. -/
theorem boundaryNormal_cases (nc n : Vec α) (h : boundaryNormal nc = some n) :
    n = ⟨1, 0⟩ ∨ n = ⟨0, -1⟩ ∨ n = ⟨-1, 0⟩ ∨ n = ⟨0, 1⟩ := by
  simp only [boundaryNormal] at h
  split_ifs at h <;> simp_all

/-- A rectangle entirely more than `radius` to the left of the center cannot
collide with the ball. -/
theorem collision_none_of_far_right (center : Vec α) (radius : α) (rect : Rect α)
    (h0 : 0 ≤ radius) (hlr : rect.left ≤ rect.right)
    (hfar : center.x - rect.right > radius) :
    ball_rect_collision center radius rect = none := by
  have hgt : rect.right < center.x := by nlinarith
  have hnl : ¬ center.x < rect.left := not_lt.mpr (hlr.trans hgt.le)
  have hx : (clampNormalX center rect).1 = rect.right := by
    simp only [clampNormalX]
    rw [if_neg hnl, if_pos hgt]
  have h1 : center.x - (clampNormalX center rect).1 > radius := by
    rw [hx]; exact hfar
  have hd : distSq center rect > radius * radius := by
    simp only [distSq]
    nlinarith [mul_self_nonneg (center.y - (clampNormalY center rect).1),
      mul_self_lt_mul_self h0 h1]
  simp only [ball_rect_collision, if_pos hd]

theorem getCell_setCell_ne (g : Grid α) (j i j' i' : Nat) (c : Rect α × Bool)
    (h : (j, i) ≠ (j', i')) :
    getCell (setCell g j i c) j' i' = getCell g j' i' := by
  unfold getCell setCell
  by_cases hj : j = j'
  · subst hj
    have hi : i ≠ i' := fun hi => h (by rw [hi])
    rw [List.get?_set_eq]
    cases hrow : g.get? j with
    | none => simp
    | some row =>
      simp only [Option.map_some, Option.some_bind, Option.getD_some, hrow]
      rw [List.get?_set_ne _ _ hi]
  · rw [List.get?_set_ne _ _ hj]

theorem getCell_setCell_self (g : Grid α) (j i : Nat) (c₀ c : Rect α × Bool)
    (h : getCell g j i = some c₀) :
    getCell (setCell g j i c) j i = some c := by
  unfold getCell at h ⊢
  unfold setCell
  cases hrow : g.get? j with
  | none => rw [hrow] at h; exact absurd h (by simp)
  | some row =>
    rw [hrow] at h
    simp only [Option.some_bind] at h
    rw [List.get?_set_eq, hrow]
    simp only [Option.map_some, Option.some_bind, Option.getD_some, hrow]
    rw [List.get?_set_eq, h]
    rfl

theorem initGrid_getCell (j i : Nat) (hj : j < GRIDY) (hi : i < GRIDX) :
    getCell (initGrid (α := α)) j i =
      some (⟨RECTSIZE * (i : α), RECTSIZE * (j : α), RECTSIZE, RECTSIZE⟩,
            decide (i < GRIDX / 2)) := by
  unfold initGrid getCell
  rw [List.get?_map, List.get?_range hj]
  simp only [Option.map_some', Option.some_bind]
  rw [List.get?_map, List.get?_range hi]
  simp [Rect.move]

/-- A row-scan step on a column whose predicate is false leaves the state
alone and moves to the next column (the `continue` of line 153 or a failed
collision test). -/
theorem scanRow_skip (center : Vec α) (bt : Bool) (dt : α) (j i : Nat)
    (rest : List Nat) (g : Grid α) (nc nd : Vec α)
    (hp : scanPred center bt g (j, i) = false) :
    scanRow center bt dt j (i :: rest) g nc nd =
      scanRow center bt dt j rest g nc nd := by
  cases hcell : getCell g j i with
  | none => simp only [scanRow, hcell]
  | some cell =>
    obtain ⟨rect, ct⟩ := cell
    simp only [scanPred, hcell, Bool.and_eq_false_iff, beq_eq_false_iff_ne,
      ne_eq] at hp
    simp only [scanRow, hcell]
    by_cases hct : ct = bt
    · subst hct
      rw [if_neg (by simp)]
      rcases hp with hp | hp
      · exact absurd rfl hp
      · cases hcol : ball_rect_collision center BALLSIZE rect with
        | none => rfl
        | some nrm => rw [hcol] at hp; simp at hp
    · rw [if_pos hct]

/-- When no remaining column of the row satisfies the predicate, the row
scan terminates without touching grid, center or direction. -/
theorem scanRow_no_hit (center : Vec α) (bt : Bool) (dt : α) (j : Nat) :
    ∀ (is : List Nat) (g : Grid α) (nc nd : Vec α),
      (∀ i ∈ is, scanPred center bt g (j, i) = false) →
      scanRow center bt dt j is g nc nd = (g, nc, nd) := by
  intro is
  induction is with
  | nil => intro g nc nd _; rfl
  | cons i rest ih =>
    intro g nc nd h
    rw [scanRow_skip center bt dt j i rest g nc nd (h i (List.mem_cons_self i rest))]
    exact ih g nc nd fun q hq => h q (List.mem_cons_of_mem i hq)

/-- When the row has a first column satisfying the predicate, the row scan
flips exactly that cell, reflects the direction across that cell's collision
normal, recomputes the position from the original center, and breaks out of
the row. -/
theorem scanRow_hit (center : Vec α) (bt : Bool) (dt : α) (j : Nat) :
    ∀ (is : List Nat) (g : Grid α) (nc nd : Vec α) (i : Nat),
      is.find? (fun i2 => scanPred center bt g (j, i2)) = some i →
      ∃ rect normal,
        getCell g j i = some (rect, bt) ∧
        ball_rect_collision center BALLSIZE rect = some normal ∧
        scanRow center bt dt j is g nc nd =
          (setCell g j i (rect, !bt),
           advance_point center (Vec.reflect nd normal) BALLSPEED dt,
           Vec.reflect nd normal) := by
  intro is
  induction is with
  | nil => intro g nc nd i h; simp at h
  | cons i0 rest ih =>
    intro g nc nd i h
    rw [List.find?_cons] at h
    cases hp : scanPred center bt g (j, i0) with
    | false =>
      rw [hp] at h
      rw [scanRow_skip center bt dt j i0 rest g nc nd hp]
      exact ih g nc nd i h
    | true =>
      rw [hp] at h
      simp only [Option.some_inj] at h
      subst h
      cases hcell : getCell g j i0 with
      | none =>
        simp only [scanPred, hcell] at hp
        exact absurd hp (by simp)
      | some cell =>
        obtain ⟨rect, ct⟩ := cell
        simp only [scanPred, hcell, Bool.and_eq_true, beq_iff_eq] at hp
        obtain ⟨hct, hcol⟩ := hp
        subst hct
        obtain ⟨nrm, hnrm⟩ := Option.isSome_iff_exists.mp hcol
        refine ⟨rect, nrm, rfl, hnrm, ?_⟩
        simp only [scanRow, hcell]
        rw [if_neg (by simp), hnrm]

/-- Case split for one full row scan (`for i in range(GRIDX)`): either no
cell of the row passes the predicate and the state is untouched, or the
first passing cell is flipped with the direction reflected and the position
recomputed from the original center. -/
theorem scanRow_cases (center : Vec α) (bt : Bool) (dt : α) (j : Nat)
    (g : Grid α) (nc nd : Vec α) :
    (rowHit center bt g j = none ∧
      scanRow center bt dt j (List.range GRIDX) g nc nd = (g, nc, nd)) ∨
    (∃ i rect normal, rowHit center bt g j = some i ∧
      getCell g j i = some (rect, bt) ∧
      ball_rect_collision center BALLSIZE rect = some normal ∧
      scanRow center bt dt j (List.range GRIDX) g nc nd =
        (setCell g j i (rect, !bt),
         advance_point center (Vec.reflect nd normal) BALLSPEED dt,
         Vec.reflect nd normal)) := by
  cases hr : rowHit center bt g j with
  | none =>
    left
    refine ⟨rfl, scanRow_no_hit center bt dt j (List.range GRIDX) g nc nd ?_⟩
    intro i hi
    exact Bool.eq_false_iff.mpr ((List.find?_eq_none.mp hr) i hi)
  | some i =>
    right
    obtain ⟨rect, nrm, hcell, hcol, hscan⟩ :=
      scanRow_hit center bt dt j (List.range GRIDX) g nc nd i hr
    exact ⟨i, rect, nrm, rfl, hcell, hcol, hscan⟩

/-- A row scan with row index `j0` never changes a cell of a different
row `j`. -/
theorem scanRow_other_row (center : Vec α) (bt : Bool) (dt : α)
    (j0 : Nat) (g : Grid α) (nc nd : Vec α) (j i : Nat) (hj : j0 ≠ j) :
    getCell (scanRow center bt dt j0 (List.range GRIDX) g nc nd).1 j i =
      getCell g j i := by
  rcases scanRow_cases center bt dt j0 g nc nd with ⟨_, hs⟩ | ⟨i0, rect, nrm, _, _, _, hs⟩
  · rw [hs]
  · rw [hs]
    exact getCell_setCell_ne g j0 i0 j i (rect, !bt) (by simp [hj])

/-- The full scan (all rows) never changes a cell of a row that is not in
the remaining row list. -/
theorem scanRows_row_untouched (center : Vec α) (bt : Bool) (dt : α) :
    ∀ (rows : List Nat) (g : Grid α) (nc nd : Vec α) (j i : Nat),
      j ∉ rows →
      getCell (scanRows center bt dt rows g nc nd).1 j i = getCell g j i := by
  intro rows
  induction rows with
  | nil => intro g nc nd j i _; rfl
  | cons j0 rest ih =>
    intro g nc nd j i hj
    have hj0 : j0 ≠ j := fun he => hj (he ▸ List.mem_cons_self j0 rest)
    have hjr : j ∉ rest := fun he => hj (List.mem_cons_of_mem j0 he)
    rcases hs : scanRow center bt dt j0 (List.range GRIDX) g nc nd with ⟨g1, nc1, nd1⟩
    have hstep : scanRows center bt dt (j0 :: rest) g nc nd =
        scanRows center bt dt rest g1 nc1 nd1 := by
      simp only [scanRows, hs]
    have hg1 : getCell g1 j i = getCell g j i := by
      have h0 := scanRow_other_row center bt dt j0 g nc nd j i hj0
      rw [hs] at h0
      exact h0
    rw [hstep, ih g1 nc1 nd1 j i hjr, hg1]

/-- Flip invariant of the full scan: any cell the scan changes held the
ball's identity before and holds its negation after. -/
theorem scanRows_flip (center : Vec α) (bt : Bool) (dt : α) :
    ∀ (rows : List Nat) (g : Grid α) (nc nd : Vec α) (j i : Nat),
      getCell (scanRows center bt dt rows g nc nd).1 j i ≠ getCell g j i →
      ∃ rect, getCell g j i = some (rect, bt) ∧
        getCell (scanRows center bt dt rows g nc nd).1 j i =
          some (rect, !bt) := by
  intro rows
  induction rows with
  | nil => intro g nc nd j i h; exact absurd rfl h
  | cons j0 rest ih =>
    intro g nc nd j i h
    rcases hs : scanRow center bt dt j0 (List.range GRIDX) g nc nd with ⟨g1, nc1, nd1⟩
    have hstep : scanRows center bt dt (j0 :: rest) g nc nd =
        scanRows center bt dt rest g1 nc1 nd1 := by
      simp only [scanRows, hs]
    rw [hstep] at h ⊢
    by_cases hch : getCell g1 j i = getCell g j i
    · obtain ⟨rect, hold, hnew⟩ := ih g1 nc1 nd1 j i (by rw [hch]; exact h)
      refine ⟨rect, ?_, hnew⟩
      rw [← hch]
      exact hold
    · rcases scanRow_cases center bt dt j0 g nc nd with ⟨_, hid⟩ |
        ⟨i0, rect, nrm, _, hcell, _, hflip⟩
      · rw [hs] at hid
        exact absurd (congrArg (fun t => getCell t.1 j i) hid) hch
      · rw [hs] at hflip
        have hg1 : g1 = setCell g j0 i0 (rect, !bt) :=
          congrArg Prod.fst hflip
        have hji : (j0, i0) = (j, i) := by
          by_contra hne
          exact hch (hg1 ▸ getCell_setCell_ne g j0 i0 j i (rect, !bt) hne)
        obtain ⟨hj0, hi0⟩ := Prod.mk.injEq .. ▸ hji
        subst hj0
        subst hi0
        have hg1cell : getCell g1 j0 i0 = some (rect, !bt) := by
          rw [hg1]
          exact getCell_setCell_self g j0 i0 (rect, bt) (rect, !bt) hcell
        refine ⟨rect, hcell, ?_⟩
        by_cases hf2 : getCell (scanRows center bt dt rest g1 nc1 nd1).1 j0 i0 =
            getCell g1 j0 i0
        · rw [hf2, hg1cell]
        · obtain ⟨rect2, hold2, _⟩ := ih g1 nc1 nd1 j0 i0 hf2
          rw [hg1cell] at hold2
          have hbad : (!bt) = bt := (Prod.mk.injEq .. ▸ Option.some_inj.mp hold2).2
          exact absurd hbad (by cases bt <;> simp)

/-- In a full scan over distinct rows, at most one cell per row changes. -/
theorem scanRows_at_most_one_per_row (center : Vec α) (bt : Bool) (dt : α) :
    ∀ (rows : List Nat) (g : Grid α) (nc nd : Vec α), rows.Nodup →
      ∀ (j i1 i2 : Nat),
        getCell (scanRows center bt dt rows g nc nd).1 j i1 ≠ getCell g j i1 →
        getCell (scanRows center bt dt rows g nc nd).1 j i2 ≠ getCell g j i2 →
        i1 = i2 := by
  intro rows
  induction rows with
  | nil => intro g nc nd _ j i1 i2 h1 _; exact absurd rfl h1
  | cons j0 rest ih =>
    intro g nc nd hnd j i1 i2 h1 h2
    obtain ⟨hj0, hrest⟩ := List.nodup_cons.mp hnd
    rcases hs : scanRow center bt dt j0 (List.range GRIDX) g nc nd with ⟨g1, nc1, nd1⟩
    have hstep : scanRows center bt dt (j0 :: rest) g nc nd =
        scanRows center bt dt rest g1 nc1 nd1 := by
      simp only [scanRows, hs]
    rw [hstep] at h1 h2
    by_cases hj : j = j0
    · subst hj
      have huntouched : ∀ i, getCell (scanRows center bt dt rest g1 nc1 nd1).1 j i =
          getCell g1 j i :=
        fun i => scanRows_row_untouched center bt dt rest g1 nc1 nd1 j i hj0
      rw [huntouched i1] at h1
      rw [huntouched i2] at h2
      rcases scanRow_cases center bt dt j g nc nd with ⟨_, hid⟩ |
        ⟨i0, rect, nrm, _, _, _, hflip⟩
      · rw [hs] at hid
        have he : g1 = g := congrArg Prod.fst hid
        rw [he] at h1
        exact absurd rfl h1
      · rw [hs] at hflip
        have hg1 : g1 = setCell g j i0 (rect, !bt) := congrArg Prod.fst hflip
        have key : ∀ i', getCell g1 j i' ≠ getCell g j i' → i' = i0 := by
          intro i' hne
          by_contra hne2
          exact hne (hg1 ▸ getCell_setCell_ne g j i0 j i' (rect, !bt)
            (by simp [Ne.symm hne2]))
        rw [key i1 h1, key i2 h2]
    · have hrow : ∀ i, getCell g1 j i = getCell g j i := by
        intro i
        have h0 := scanRow_other_row center bt dt j0 g nc nd j i (fun he => hj he.symm)
        rw [hs] at h0
        exact h0
      rw [← hrow i1] at h1
      rw [← hrow i2] at h2
      exact ih g1 nc1 nd1 hrest j i1 i2 h1 h2

/-- The full scan terminates without touching grid, center or direction when
no row has a hit. -/
theorem scanRows_no_hit (center : Vec α) (bt : Bool) (dt : α) :
    ∀ (rows : List Nat) (g : Grid α) (nc nd : Vec α),
      (∀ j ∈ rows, rowHit center bt g j = none) →
      scanRows center bt dt rows g nc nd = (g, nc, nd) := by
  intro rows
  induction rows with
  | nil => intro g nc nd _; rfl
  | cons j0 rest ih =>
    intro g nc nd h
    have hid : scanRow center bt dt j0 (List.range GRIDX) g nc nd = (g, nc, nd) := by
      rcases scanRow_cases center bt dt j0 g nc nd with ⟨_, hid⟩ | ⟨i0, _, _, hr, _⟩
      · exact hid
      · rw [h j0 (List.mem_cons_self j0 rest)] at hr
        exact absurd hr (by simp)
    have hstep : scanRows center bt dt (j0 :: rest) g nc nd =
        scanRows center bt dt rest g nc nd := by
      simp only [scanRows, hid]
    rw [hstep]
    exact ih g nc nd fun q hq => h q (List.mem_cons_of_mem j0 hq)

/-- The full scan preserves a unit squared-norm direction: every reflection
it performs (at most one per row) is across a collision normal, which has
squared norm one. -/
theorem scanRows_sqNorm (center : Vec α) (bt : Bool) (dt : α) :
    ∀ (rows : List Nat) (g : Grid α) (nc nd : Vec α),
      sqNorm nd = 1 → sqNorm (scanRows center bt dt rows g nc nd).2.2 = 1 := by
  intro rows
  induction rows with
  | nil => intro g nc nd h; exact h
  | cons j0 rest ih =>
    intro g nc nd h
    rcases hs : scanRow center bt dt j0 (List.range GRIDX) g nc nd with ⟨g1, nc1, nd1⟩
    have hstep : scanRows center bt dt (j0 :: rest) g nc nd =
        scanRows center bt dt rest g1 nc1 nd1 := by
      simp only [scanRows, hs]
    rw [hstep]
    apply ih
    rcases scanRow_cases center bt dt j0 g nc nd with ⟨_, hid⟩ |
      ⟨i0, rect, nrm, _, _, hcol, hflip⟩
    · rw [hs] at hid
      have hnd : nd1 = nd := congrArg (fun t => t.2.2) hid
      rw [hnd]
      exact h
    · rw [hs] at hflip
      have hnd : nd1 = Vec.reflect nd nrm := congrArg (fun t => t.2.2) hflip
      have hn : nrm.x * nrm.x + nrm.y * nrm.y = 1 := by
        rcases collision_normal_cases center BALLSIZE rect nrm hcol with h1 | h1 <;>
          rw [h1] <;> norm_num
      rw [hnd, reflect_sqNorm nd nrm hn]
      exact h

/-- Unfolding `run_ball` to the scan stage: when the boundary check does not
trigger, the scan starts from the tentative center and unchanged direction;
when it triggers with normal `n`, the scan starts from the reflected
direction and the position recomputed from the original center (lines
145-147), with no further boundary check. -/
theorem run_ball_eq_scan (center direction : Vec α) (g : Grid α) (bt : Bool)
    (dt : α) :
    (boundaryNormal (advance_point center direction BALLSPEED dt) = none →
      run_ball center direction g bt dt =
        scanRows center bt dt (List.range GRIDY) g
          (advance_point center direction BALLSPEED dt) direction) ∧
    (∀ n, boundaryNormal (advance_point center direction BALLSPEED dt) = some n →
      run_ball center direction g bt dt =
        scanRows center bt dt (List.range GRIDY) g
          (advance_point center (Vec.reflect direction n) BALLSPEED dt)
          (Vec.reflect direction n)) := by
  constructor
  · intro h
    simp only [run_ball, h]
  · intro n h
    simp only [run_ball, h]

/-- Pygame's normalize is the identity on the four axis unit vectors used as
boundary normals in `run_ball`. -/
theorem normalize_unit_axis :
    normalize ⟨1, 0⟩ = (⟨1, 0⟩ : Vec ℝ) ∧ normalize ⟨0, -1⟩ = (⟨0, -1⟩ : Vec ℝ) ∧
    normalize ⟨-1, 0⟩ = (⟨-1, 0⟩ : Vec ℝ) ∧ normalize ⟨0, 1⟩ = (⟨0, 1⟩ : Vec ℝ) := by
  refine ⟨?_, ?_, ?_, ?_⟩ <;> norm_num [normalize]

/-- The initial ball directions produced by `normalize` on `(1, 1)` and
`(-1, -1)`. -/
theorem normalize_diagonal :
    normalize ⟨1, 1⟩ = (⟨1 / Real.sqrt 2, 1 / Real.sqrt 2⟩ : Vec ℝ) ∧
    normalize ⟨-1, -1⟩ =
      (⟨-(1 / Real.sqrt 2), -(1 / Real.sqrt 2)⟩ : Vec ℝ) := by
  constructor <;> simp [normalize] <;> ring_nf

/-- Rational bounds on the square root of two, for the numeric scenario. -/
theorem sqrt_two_bounds : 1.414213 < Real.sqrt 2 ∧ Real.sqrt 2 < 1.4142136 := by
  have h := Real.mul_self_sqrt (show (0:ℝ) ≤ 2 by norm_num)
  have hnn := Real.sqrt_nonneg 2
  constructor <;> nlinarith

/-- The common loop bound of both scan loops, as an explicit list. -/
theorem range_ten_literal : List.range 10 = [0, 1, 2, 3, 4, 5, 6, 7, 8, 9] := by
  decide

/-- The initial grid is well-formed: ten rows of ten cells. -/
theorem initGrid_wf : gridWF (initGrid (α := α)) := by
  constructor
  · simp [initGrid, GRIDY]
  · intro row hrow
    simp only [initGrid] at hrow
    obtain ⟨j, -, rfl⟩ := List.mem_map.mp hrow
    simp [GRIDX]

/-! ### Claim theorems -/

/-- C3 (confirmed): for every circle center, nonnegative radius, and
rectangle, the collision resolver returns `none` iff the Euclidean distance
from the center to the nearest point on the rectangle (the center clamped to
the rectangle's bounds on each axis) is strictly greater than the radius;
exact touching (distance = radius) counts as a collision and yields a
non-null normal. -/
theorem C3_resolver_none_iff_dist_gt (center : Vec ℝ) (radius : ℝ)
    (rect : Rect ℝ) (h0 : 0 ≤ radius) :
    (ball_rect_collision center radius rect = none ↔
      Real.sqrt (distSq center rect) > radius) ∧
    (Real.sqrt (distSq center rect) = radius →
      ∃ n, ball_rect_collision center radius rect = some n) := by
  have hd := distSq_nonneg center rect
  have hiff := sqrt_gt_iff_sq_gt (distSq center rect) radius hd h0
  constructor
  · rw [hiff]
    unfold ball_rect_collision
    split_ifs with h
    · simp [h]
    · simp [h]
  · intro htouch
    have hne : ¬ distSq center rect > radius * radius := by
      rw [← hiff, htouch]
      exact lt_irrefl radius
    unfold ball_rect_collision
    rw [if_neg hne]
    exact ⟨_, rfl⟩

/-- Witness for C3: the hypothesis `0 ≤ radius` holds at radius 10. -/
theorem C3_resolver_none_iff_dist_gt_witness :
    (0:ℝ) ≤ 10 ∧
    ((ball_rect_collision (⟨-5, -5⟩ : Vec ℝ) 10 ⟨0, 0, 25, 25⟩ = none ↔
        Real.sqrt (distSq (⟨-5, -5⟩ : Vec ℝ) ⟨0, 0, 25, 25⟩) > 10) ∧
      (Real.sqrt (distSq (⟨-5, -5⟩ : Vec ℝ) ⟨0, 0, 25, 25⟩) = 10 →
        ∃ n, ball_rect_collision (⟨-5, -5⟩ : Vec ℝ) 10 ⟨0, 0, 25, 25⟩ = some n)) :=
  ⟨by norm_num, C3_resolver_none_iff_dist_gt ⟨-5, -5⟩ 10 ⟨0, 0, 25, 25⟩ (by norm_num)⟩

/-- C8 (confirmed): whenever the resolver detects a collision but the center
lies outside both the horizontal and the vertical span of the rectangle, the
returned normal is exactly `(1, 0)`. -/
theorem C8_corner_fallback (center : Vec α) (radius : α) (rect : Rect α)
    (hcol : (ball_rect_collision center radius rect).isSome = true)
    (hx : ¬ (rect.left ≤ center.x ∧ center.x ≤ rect.right))
    (hy : ¬ (rect.top ≤ center.y ∧ center.y ≤ rect.bottom)) :
    ball_rect_collision center radius rect = some ⟨1, 0⟩ := by
  have hd : ¬ distSq center rect > radius * radius := by
    intro hgt
    unfold ball_rect_collision at hcol
    rw [if_pos hgt] at hcol
    simp at hcol
  unfold ball_rect_collision
  rw [if_neg hd, if_neg hx, if_neg hy]
  rfl

/-- Witness for C8: center `(-5,-5)` against the cell at the origin, outside
both spans, within radius of the corner. -/
theorem C8_corner_fallback_witness :
    (ball_rect_collision (⟨-5, -5⟩ : Vec ℚ) 10 ⟨0, 0, 25, 25⟩).isSome = true ∧
    ¬ ((0:ℚ) ≤ -5 ∧ (-5:ℚ) ≤ 25) ∧
    ball_rect_collision (⟨-5, -5⟩ : Vec ℚ) 10 ⟨0, 0, 25, 25⟩ = some ⟨1, 0⟩ := by
  have h1 : (ball_rect_collision (⟨-5, -5⟩ : Vec ℚ) 10 ⟨0, 0, 25, 25⟩).isSome = true := by
    norm_num [ball_rect_collision, clampNormalX, clampNormalY, distSq,
      Rect.right, Rect.bottom]
  refine ⟨h1, by norm_num, ?_⟩
  exact C8_corner_fallback ⟨-5, -5⟩ 10 ⟨0, 0, 25, 25⟩ h1
    (by norm_num [Rect.right]) (by norm_num [Rect.bottom])

/-- C10 (confirmed, implicit claim): every normal the resolver can return is
an x-axis unit vector `(1,0)` or `(-1,0)` (y-component zero), and both
vertical-side intermediate normals are themselves built on the x axis, so no
y-axis normal is ever produced. -/
theorem C10_all_normals_x_axis (center : Vec α) (radius : α) (rect : Rect α)
    (n : Vec α) (h : ball_rect_collision center radius rect = some n) :
    (n = ⟨1, 0⟩ ∨ n = ⟨-1, 0⟩) ∧ n.y = 0 ∧
    ((clampNormalY center rect).2 = none ∨
      (clampNormalY center rect).2 = some ⟨1, 0⟩ ∨
      (clampNormalY center rect).2 = some ⟨-1, 0⟩) := by
  have hc := collision_normal_cases center radius rect n h
  refine ⟨hc, ?_, clampNormalY_snd center rect⟩
  rcases hc with h1 | h1 <;> simp [h1]

/-- Witness for C10 at a concrete collision (center above the cell). -/
theorem C10_all_normals_x_axis_witness :
    ball_rect_collision (⟨12, -5⟩ : Vec ℚ) 10 ⟨0, 0, 25, 25⟩ = some ⟨1, 0⟩ ∧
    (((⟨1, 0⟩ : Vec ℚ) = ⟨1, 0⟩ ∨ (⟨1, 0⟩ : Vec ℚ) = ⟨-1, 0⟩) ∧
      (⟨1, 0⟩ : Vec ℚ).y = 0 ∧
      ((clampNormalY (⟨12, -5⟩ : Vec ℚ) ⟨0, 0, 25, 25⟩).2 = none ∨
        (clampNormalY (⟨12, -5⟩ : Vec ℚ) ⟨0, 0, 25, 25⟩).2 = some ⟨1, 0⟩ ∨
        (clampNormalY (⟨12, -5⟩ : Vec ℚ) ⟨0, 0, 25, 25⟩).2 = some ⟨-1, 0⟩)) := by
  have h1 : ball_rect_collision (⟨12, -5⟩ : Vec ℚ) 10 ⟨0, 0, 25, 25⟩ = some ⟨1, 0⟩ := by
    norm_num [ball_rect_collision, clampNormalX, clampNormalY, distSq,
      Rect.right, Rect.bottom]
  exact ⟨h1, C10_all_normals_x_axis ⟨12, -5⟩ 10 ⟨0, 0, 25, 25⟩ ⟨1, 0⟩ h1⟩

/-- C2 counterexample: at center `(12, -5)` (within the horizontal span of
the cell at the origin, beyond its top face) with radius 10 the resolver
reports a collision but returns the x-axis vector `(1, 0)` rather than a
y-axis normal with component `-1` as the claim requires. -/
theorem C2_counterexample :
    ball_rect_collision (⟨12, -5⟩ : Vec ℚ) 10 ⟨0, 0, 25, 25⟩ = some ⟨1, 0⟩ ∧
    ((0:ℚ) ≤ 12 ∧ (12:ℚ) ≤ 25) ∧ (-5:ℚ) < 0 ∧
    (⟨1, 0⟩ : Vec ℚ).y ≠ -1 ∧ (⟨1, 0⟩ : Vec ℚ) ≠ ⟨0, -1⟩ := by
  refine ⟨?_, by norm_num, by norm_num, by norm_num, by simp⟩
  norm_num [ball_rect_collision, clampNormalX, clampNormalY, distSq,
    Rect.right, Rect.bottom]

/-- C2 as amended: for a well-formed rectangle on which the resolver reports
a collision, the x-axis signs match the side the center is beyond (low side
`-1`, high side `+1`), while for a center inside the horizontal span the
returned normal is the x-axis vector `(1, 0)` when the center is beyond the
top face and `(-1, 0)` when it is beyond the bottom face (not a y-axis
normal). -/
theorem C2_amended_normal_signs (center : Vec α) (radius : α) (rect : Rect α)
    (hwx : rect.left ≤ rect.right) (hwy : rect.top ≤ rect.bottom)
    (hcol : ¬ distSq center rect > radius * radius) :
    (center.x < rect.left → rect.top ≤ center.y ∧ center.y ≤ rect.bottom →
      ball_rect_collision center radius rect = some ⟨-1, 0⟩) ∧
    (center.x > rect.right → rect.top ≤ center.y ∧ center.y ≤ rect.bottom →
      ball_rect_collision center radius rect = some ⟨1, 0⟩) ∧
    (rect.left ≤ center.x ∧ center.x ≤ rect.right → center.y < rect.top →
      ball_rect_collision center radius rect = some ⟨1, 0⟩) ∧
    (rect.left ≤ center.x ∧ center.x ≤ rect.right → center.y > rect.bottom →
      ball_rect_collision center radius rect = some ⟨-1, 0⟩) := by
  refine ⟨?_, ?_, ?_, ?_⟩
  · intro hx hyspan
    have hnx : ¬ (rect.left ≤ center.x ∧ center.x ≤ rect.right) :=
      fun hc => absurd hx (not_lt.mpr hc.1)
    unfold ball_rect_collision clampNormalX
    rw [if_neg hcol, if_neg hnx, if_pos hyspan, if_pos hx]
    rfl
  · intro hx hyspan
    have hnx : ¬ (rect.left ≤ center.x ∧ center.x ≤ rect.right) :=
      fun hc => absurd hx (not_lt.mpr hc.2)
    have hnl : ¬ center.x < rect.left := not_lt.mpr (hwx.trans hx.le)
    unfold ball_rect_collision clampNormalX
    rw [if_neg hcol, if_neg hnx, if_pos hyspan, if_neg hnl, if_pos hx]
    rfl
  · intro hxspan hy
    unfold ball_rect_collision clampNormalY
    rw [if_neg hcol, if_pos hxspan, if_pos hy]
    rfl
  · intro hxspan hy
    have hnt : ¬ center.y < rect.top := not_lt.mpr (hwy.trans hy.le)
    unfold ball_rect_collision clampNormalY
    rw [if_neg hcol, if_pos hxspan, if_neg hnt, if_pos hy]
    rfl

/-- Witness for the amended C2: center `(-5, 10)` left of the origin cell,
inside its vertical span, touching within radius. -/
theorem C2_amended_normal_signs_witness :
    ((0:ℚ) ≤ 25 ∧ (0:ℚ) ≤ 25) ∧
    ¬ distSq (⟨-5, 10⟩ : Vec ℚ) (⟨0, 0, 25, 25⟩ : Rect ℚ) > 10 * 10 ∧
    ball_rect_collision (⟨-5, 10⟩ : Vec ℚ) 10 ⟨0, 0, 25, 25⟩ = some ⟨-1, 0⟩ :=
  ⟨⟨by norm_num, by norm_num⟩,
   by norm_num [distSq, clampNormalX, clampNormalY, Rect.right, Rect.bottom],
   (C2_amended_normal_signs ⟨-5, 10⟩ 10 ⟨0, 0, 25, 25⟩
      (by norm_num [Rect.right]) (by norm_num [Rect.bottom])
      (by norm_num [distSq, clampNormalX, clampNormalY, Rect.right, Rect.bottom])).1
    (by norm_num) (by norm_num [Rect.bottom])⟩

/-- C4 (confirmed): the four world-boundary checks on the tentative new
center are evaluated in the fixed priority order left, top, right, bottom
with normals `(1,0)`, `(0,-1)`, `(-1,0)`, `(0,1)`; only the first triggered
boundary is handled (an earlier trigger masks all later ones); and when one
triggers, `run_ball` reflects the direction across it, recomputes the
position by advancing from the original pre-step center with the same dt and
speed, and goes straight to the cell scan with no further boundary check. -/
theorem C4_boundary_priority_and_reflection :
    (∀ (nc : Vec α), nc.x - BALLSIZE < 0 → boundaryNormal nc = some ⟨1, 0⟩) ∧
    (∀ (nc : Vec α), ¬ nc.x - BALLSIZE < 0 → nc.y - BALLSIZE < 0 →
      boundaryNormal nc = some ⟨0, -1⟩) ∧
    (∀ (nc : Vec α), ¬ nc.x - BALLSIZE < 0 → ¬ nc.y - BALLSIZE < 0 →
      nc.x + BALLSIZE > RECTSIZE * (GRIDX : α) →
      boundaryNormal nc = some ⟨-1, 0⟩) ∧
    (∀ (nc : Vec α), ¬ nc.x - BALLSIZE < 0 → ¬ nc.y - BALLSIZE < 0 →
      ¬ nc.x + BALLSIZE > RECTSIZE * (GRIDX : α) →
      nc.y + BALLSIZE > RECTSIZE * (GRIDY : α) →
      boundaryNormal nc = some ⟨0, 1⟩) ∧
    (∀ (nc : Vec α), ¬ nc.x - BALLSIZE < 0 → ¬ nc.y - BALLSIZE < 0 →
      ¬ nc.x + BALLSIZE > RECTSIZE * (GRIDX : α) →
      ¬ nc.y + BALLSIZE > RECTSIZE * (GRIDY : α) →
      boundaryNormal nc = none) ∧
    (∀ (center direction : Vec α) (g : Grid α) (bt : Bool) (dt : α) (n : Vec α),
      boundaryNormal (advance_point center direction BALLSPEED dt) = some n →
      run_ball center direction g bt dt =
        scanRows center bt dt (List.range GRIDY) g
          (advance_point center (Vec.reflect direction n) BALLSPEED dt)
          (Vec.reflect direction n)) := by
  refine ⟨?_, ?_, ?_, ?_, ?_, ?_⟩
  · intro nc h
    simp [boundaryNormal, h]
  · intro nc h1 h2
    simp [boundaryNormal, h1, h2]
  · intro nc h1 h2 h3
    simp [boundaryNormal, h1, h2, h3]
  · intro nc h1 h2 h3 h4
    simp [boundaryNormal, h1, h2, h3, h4]
  · intro nc h1 h2 h3 h4
    simp [boundaryNormal, h1, h2, h3, h4]
  · intro center direction g bt dt n h
    exact (run_ball_eq_scan center direction g bt dt).2 n h

/-- Witness for C4: each boundary case at a concrete tentative center, a
priority case (at `(5,5)` both the left and the top check hold and left
wins), and a concrete boundary reflection of `run_ball` on the initial
grid. -/
theorem C4_boundary_priority_and_reflection_witness :
    ((5:ℚ) - 10 < 0 ∧ (5:ℚ) - 10 < 0 ∧
      boundaryNormal (⟨5, 5⟩ : Vec ℚ) = some ⟨1, 0⟩) ∧
    boundaryNormal (⟨100, 5⟩ : Vec ℚ) = some ⟨0, -1⟩ ∧
    boundaryNormal (⟨245, 100⟩ : Vec ℚ) = some ⟨-1, 0⟩ ∧
    boundaryNormal (⟨100, 245⟩ : Vec ℚ) = some ⟨0, 1⟩ ∧
    boundaryNormal (⟨100, 100⟩ : Vec ℚ) = none ∧
    run_ball (⟨5, 100⟩ : Vec ℚ) ⟨-1, 0⟩ (initGrid (α := ℚ)) true 1 =
      scanRows (⟨5, 100⟩ : Vec ℚ) true 1 (List.range GRIDY) (initGrid (α := ℚ))
        (advance_point ⟨5, 100⟩ (Vec.reflect ⟨-1, 0⟩ ⟨1, 0⟩) BALLSPEED 1)
        (Vec.reflect ⟨-1, 0⟩ ⟨1, 0⟩) := by
  have hb : boundaryNormal (advance_point (⟨5, 100⟩ : Vec ℚ) ⟨-1, 0⟩ BALLSPEED 1) =
      some ⟨1, 0⟩ := by
    norm_num [boundaryNormal, advance_point, BALLSIZE, BALLSPEED, RECTSIZE, GRIDX, GRIDY]
  refine ⟨⟨by norm_num, by norm_num,
      C4_boundary_priority_and_reflection.1 ⟨5, 5⟩ (by norm_num [BALLSIZE])⟩,
    C4_boundary_priority_and_reflection.2.1 ⟨100, 5⟩
      (by norm_num [BALLSIZE]) (by norm_num [BALLSIZE]),
    C4_boundary_priority_and_reflection.2.2.1 ⟨245, 100⟩
      (by norm_num [BALLSIZE]) (by norm_num [BALLSIZE])
      (by norm_num [BALLSIZE, RECTSIZE, GRIDX]),
    C4_boundary_priority_and_reflection.2.2.2.1 ⟨100, 245⟩
      (by norm_num [BALLSIZE]) (by norm_num [BALLSIZE])
      (by norm_num [BALLSIZE, RECTSIZE, GRIDX]) (by norm_num [BALLSIZE, RECTSIZE, GRIDY]),
    C4_boundary_priority_and_reflection.2.2.2.2.1 ⟨100, 100⟩
      (by norm_num [BALLSIZE]) (by norm_num [BALLSIZE])
      (by norm_num [BALLSIZE, RECTSIZE, GRIDX]) (by norm_num [BALLSIZE, RECTSIZE, GRIDY]),
    C4_boundary_priority_and_reflection.2.2.2.2.2 ⟨5, 100⟩ ⟨-1, 0⟩
      (initGrid (α := ℚ)) true 1 ⟨1, 0⟩ hb⟩

set_option maxHeartbeats 1600000 in
/-- C5 counterexample: one tick, two flips.  The day ball at `(30, 25)` on
the initial grid collides with cell `(0, 0)`, flips it, and — because the
source's `break` (line 159) exits only the inner column loop — the scan
continues with row 1, where cell `(1, 0)` also collides and is flipped too.
The claim says at most one cell is flipped per ball per tick and that
scanning stops at the first hit. -/
theorem C5_counterexample :
    getCell (initGrid (α := ℚ)) 0 0 = some (⟨0, 0, 25, 25⟩, true) ∧
    getCell (initGrid (α := ℚ)) 1 0 = some (⟨0, 25, 25, 25⟩, true) ∧
    getCell (run_ball (⟨30, 25⟩ : Vec ℚ) ⟨0, 1⟩ (initGrid (α := ℚ)) true 1).1 0 0 =
      some (⟨0, 0, 25, 25⟩, false) ∧
    getCell (run_ball (⟨30, 25⟩ : Vec ℚ) ⟨0, 1⟩ (initGrid (α := ℚ)) true 1).1 1 0 =
      some (⟨0, 25, 25, 25⟩, false) := by
  refine ⟨?_, ?_, ?_, ?_⟩ <;>
    norm_num [run_ball, boundaryNormal, scanRows, scanRow, getCell, setCell,
      scanPred, initGrid, Rect.move, range_ten_literal, ball_rect_collision,
      clampNormalX, clampNormalY, distSq, advance_point, Vec.reflect, Vec.dot,
      BALLSIZE, BALLSPEED, RECTSIZE, GRIDX, GRIDY, Rect.right, Rect.bottom]

/-- C5 as amended (per-row, not per-tick, exclusivity): within each row,
scanned row-major, the first cell for which the resolver reports a collision
(among the cells whose state equals the ball's identity) is the one flipped
and the scan of THAT ROW stops there; the outer row loop continues, so a
tick flips at most one cell per row — possibly several cells in one tick —
rather than at most one per tick. -/
theorem C5_amended_per_row_first_hit (center direction : Vec α) (g : Grid α)
    (bt : Bool) (dt : α) (hwf : gridWF g) :
    (∀ (j : Nat) (nc nd : Vec α), rowHit center bt g j = none →
      scanRow center bt dt j (List.range GRIDX) g nc nd = (g, nc, nd)) ∧
    (∀ (j i : Nat) (nc nd : Vec α), rowHit center bt g j = some i →
      ∃ rect normal,
        getCell g j i = some (rect, bt) ∧
        ball_rect_collision center BALLSIZE rect = some normal ∧
        scanRow center bt dt j (List.range GRIDX) g nc nd =
          (setCell g j i (rect, !bt),
           advance_point center (Vec.reflect nd normal) BALLSPEED dt,
           Vec.reflect nd normal)) ∧
    (∀ (j i1 i2 : Nat),
      getCell (run_ball center direction g bt dt).1 j i1 ≠ getCell g j i1 →
      getCell (run_ball center direction g bt dt).1 j i2 ≠ getCell g j i2 →
      i1 = i2) := by
  refine ⟨?_, ?_, ?_⟩
  · intro j nc nd hr
    exact scanRow_no_hit center bt dt j (List.range GRIDX) g nc nd
      (fun i hi => Bool.eq_false_iff.mpr ((List.find?_eq_none.mp hr) i hi))
  · intro j i nc nd hr
    exact scanRow_hit center bt dt j (List.range GRIDX) g nc nd i hr
  · intro j i1 i2 h1 h2
    cases hb : boundaryNormal (advance_point center direction BALLSPEED dt) with
    | none =>
      rw [(run_ball_eq_scan center direction g bt dt).1 hb] at h1 h2
      exact scanRows_at_most_one_per_row center bt dt (List.range GRIDY) g _ _
        (List.nodup_range GRIDY) j i1 i2 h1 h2
    | some n =>
      rw [(run_ball_eq_scan center direction g bt dt).2 n hb] at h1 h2
      exact scanRows_at_most_one_per_row center bt dt (List.range GRIDY) g _ _
        (List.nodup_range GRIDY) j i1 i2 h1 h2

/-- Witness for the amended C5, on the initial grid with the day ball at
`(30, 25)`: row 2 has no hit and its scan is the identity; row 0's first hit
is column 0 and its scan flips exactly that cell; and the two cells the full
tick changes in row 0 coincide. -/
theorem C5_amended_per_row_first_hit_witness :
    gridWF (initGrid (α := ℚ)) ∧
    rowHit (⟨30, 25⟩ : Vec ℚ) true (initGrid (α := ℚ)) 2 = none ∧
    scanRow (⟨30, 25⟩ : Vec ℚ) true 1 2 (List.range GRIDX) (initGrid (α := ℚ))
      ⟨0, 0⟩ ⟨0, 1⟩ = (initGrid (α := ℚ), ⟨0, 0⟩, ⟨0, 1⟩) ∧
    rowHit (⟨30, 25⟩ : Vec ℚ) true (initGrid (α := ℚ)) 0 = some 0 ∧
    (∃ rect normal,
      getCell (initGrid (α := ℚ)) 0 0 = some (rect, true) ∧
      ball_rect_collision (⟨30, 25⟩ : Vec ℚ) BALLSIZE rect = some normal ∧
      scanRow (⟨30, 25⟩ : Vec ℚ) true 1 0 (List.range GRIDX) (initGrid (α := ℚ))
        ⟨0, 0⟩ ⟨0, 1⟩ =
        (setCell (initGrid (α := ℚ)) 0 0 (rect, !true),
         advance_point ⟨30, 25⟩ (Vec.reflect ⟨0, 1⟩ normal) BALLSPEED 1,
         Vec.reflect ⟨0, 1⟩ normal)) ∧
    getCell (run_ball (⟨30, 25⟩ : Vec ℚ) ⟨0, 1⟩ (initGrid (α := ℚ)) true 1).1 0 0 ≠
      getCell (initGrid (α := ℚ)) 0 0 := by
  have hwf : gridWF (initGrid (α := ℚ)) := initGrid_wf
  have h2 : rowHit (⟨30, 25⟩ : Vec ℚ) true (initGrid (α := ℚ)) 2 = none := by
    norm_num [rowHit, range_ten_literal, List.find?, scanPred, getCell, initGrid,
      Rect.move, ball_rect_collision, clampNormalX, clampNormalY, distSq,
      BALLSIZE, RECTSIZE, GRIDX, GRIDY, Rect.right, Rect.bottom]
  have h0 : rowHit (⟨30, 25⟩ : Vec ℚ) true (initGrid (α := ℚ)) 0 = some 0 := by
    norm_num [rowHit, range_ten_literal, List.find?, scanPred, getCell, initGrid,
      Rect.move, ball_rect_collision, clampNormalX, clampNormalY, distSq,
      BALLSIZE, RECTSIZE, GRIDX, GRIDY, Rect.right, Rect.bottom]
  have hch : getCell (run_ball (⟨30, 25⟩ : Vec ℚ) ⟨0, 1⟩ (initGrid (α := ℚ))
      true 1).1 0 0 ≠ getCell (initGrid (α := ℚ)) 0 0 := by
    norm_num [run_ball, boundaryNormal, scanRows, scanRow, getCell, setCell,
      scanPred, initGrid, Rect.move, range_ten_literal, ball_rect_collision,
      clampNormalX, clampNormalY, distSq, advance_point, Vec.reflect, Vec.dot,
      BALLSIZE, BALLSPEED, RECTSIZE, GRIDX, GRIDY, Rect.right, Rect.bottom]
  have happ := C5_amended_per_row_first_hit (⟨30, 25⟩ : Vec ℚ) ⟨0, 1⟩
    (initGrid (α := ℚ)) true 1 hwf
  exact ⟨hwf, h2, happ.1 2 ⟨0, 0⟩ ⟨0, 1⟩ h2, h0,
    happ.2.1 0 0 ⟨0, 0⟩ ⟨0, 1⟩ h0, hch⟩

/-- C1 counterexample: the day ball (identity `true`) at `(30, 25)` on the
initial grid: `run_ball` tests cell `(0, 0)` — whose state `true` EQUALS the
ball's identity — against the resolver and flips it to `false`.  The claim
says a ball only flips, and only tests, cells whose state differs from its
identity, and that a flipped cell ends in the ball's identity; here the
flipped cell started equal to the identity and ended different from it. -/
theorem C1_counterexample :
    getCell (initGrid (α := ℚ)) 0 0 = some (⟨0, 0, 25, 25⟩, true) ∧
    getCell (run_ball (⟨30, 25⟩ : Vec ℚ) ⟨0, 1⟩ (initGrid (α := ℚ)) true 1).1 0 0 =
      some (⟨0, 0, 25, 25⟩, false) := by
  constructor <;>
    norm_num [run_ball, boundaryNormal, scanRows, scanRow, getCell, setCell,
      scanPred, initGrid, Rect.move, range_ten_literal, ball_rect_collision,
      clampNormalX, clampNormalY, distSq, advance_point, Vec.reflect, Vec.dot,
      BALLSIZE, BALLSPEED, RECTSIZE, GRIDX, GRIDY, Rect.right, Rect.bottom]

/-- C1 as amended (the flip direction is inverted relative to the claim):
on a well-formed grid, whenever `run_ball` changes a cell, that cell's
previous state equaled the ball's identity and its new state is the negation
(so it differs from the ball's identity); and the scan predicate only
accepts cells whose state equals the ball's identity, so only such cells are
ever collision-tested. -/
theorem C1_amended_flip_same_state (center direction : Vec α) (g : Grid α)
    (bt : Bool) (dt : α) (j i : Nat) (hwf : gridWF g)
    (h : getCell (run_ball center direction g bt dt).1 j i ≠ getCell g j i) :
    (∃ rect, getCell g j i = some (rect, bt) ∧
      getCell (run_ball center direction g bt dt).1 j i = some (rect, !bt)) ∧
    (∀ (p : Nat × Nat) (rect : Rect α) (ct : Bool),
      getCell g p.1 p.2 = some (rect, ct) → scanPred center bt g p = true →
      ct = bt) := by
  constructor
  · cases hb : boundaryNormal (advance_point center direction BALLSPEED dt) with
    | none =>
      rw [(run_ball_eq_scan center direction g bt dt).1 hb] at h ⊢
      exact scanRows_flip center bt dt (List.range GRIDY) g _ _ j i h
    | some n =>
      rw [(run_ball_eq_scan center direction g bt dt).2 n hb] at h ⊢
      exact scanRows_flip center bt dt (List.range GRIDY) g _ _ j i h
  · intro p rect ct hcell hpred
    simp only [scanPred, hcell, Bool.and_eq_true, beq_iff_eq] at hpred
    exact hpred.1

/-- Witness for the amended C1, at the concrete flip of cell `(0, 0)` by the
day ball at `(30, 25)` on the initial grid. -/
theorem C1_amended_flip_same_state_witness :
    gridWF (initGrid (α := ℚ)) ∧
    getCell (run_ball (⟨30, 25⟩ : Vec ℚ) ⟨0, 1⟩ (initGrid (α := ℚ)) true 1).1 0 0 ≠
      getCell (initGrid (α := ℚ)) 0 0 ∧
    ((∃ rect, getCell (initGrid (α := ℚ)) 0 0 = some (rect, true) ∧
      getCell (run_ball (⟨30, 25⟩ : Vec ℚ) ⟨0, 1⟩ (initGrid (α := ℚ)) true 1).1 0 0 =
        some (rect, !true)) ∧
    (∀ (p : Nat × Nat) (rect : Rect ℚ) (ct : Bool),
      getCell (initGrid (α := ℚ)) p.1 p.2 = some (rect, ct) →
      scanPred (⟨30, 25⟩ : Vec ℚ) true (initGrid (α := ℚ)) p = true →
      ct = true)) := by
  have h : getCell (run_ball (⟨30, 25⟩ : Vec ℚ) ⟨0, 1⟩ (initGrid (α := ℚ))
      true 1).1 0 0 ≠ getCell (initGrid (α := ℚ)) 0 0 := by
    norm_num [run_ball, boundaryNormal, scanRows, scanRow, getCell, setCell,
      scanPred, initGrid, Rect.move, range_ten_literal, ball_rect_collision,
      clampNormalX, clampNormalY, distSq, advance_point, Vec.reflect, Vec.dot,
      BALLSIZE, BALLSPEED, RECTSIZE, GRIDX, GRIDY, Rect.right, Rect.bottom]
  exact ⟨initGrid_wf, h, C1_amended_flip_same_state ⟨30, 25⟩ ⟨0, 1⟩
    (initGrid (α := ℚ)) true 1 0 0 initGrid_wf h⟩

/-- C7 (confirmed): ticking while paused is a no-op: the whole state — in
particular the grid and both balls' centers and directions — is returned
unchanged. -/
theorem C7_pause_invariance (s : GameState α) (dt : α) (h : s.paused = true) :
    run s dt = s ∧ (run s dt).grid = s.grid ∧
    (run s dt).dayball = s.dayball ∧ (run s dt).nightball = s.nightball ∧
    (run s dt).dayball_direction = s.dayball_direction ∧
    (run s dt).nightball_direction = s.nightball_direction := by
  have hr : run s dt = s := by simp [run, h]
  exact ⟨hr, by rw [hr], by rw [hr], by rw [hr], by rw [hr], by rw [hr]⟩

/-- Witness for C7 at a concrete paused state (with the initial grid) and
dt = 5. -/
theorem C7_pause_invariance_witness :
    (GameState.mk true true (initGrid (α := ℚ))
      ⟨0, 0⟩ ⟨0, 0⟩ ⟨1, 0⟩ ⟨-1, 0⟩).paused = true ∧
    run (GameState.mk true true (initGrid (α := ℚ))
        ⟨0, 0⟩ ⟨0, 0⟩ ⟨1, 0⟩ ⟨-1, 0⟩) 5 =
      GameState.mk true true (initGrid (α := ℚ))
        ⟨0, 0⟩ ⟨0, 0⟩ ⟨1, 0⟩ ⟨-1, 0⟩ :=
  ⟨rfl, (C7_pause_invariance (GameState.mk true true (initGrid (α := ℚ))
    ⟨0, 0⟩ ⟨0, 0⟩ ⟨1, 0⟩ ⟨-1, 0⟩) 5 rfl).1⟩

/-- C6 (confirmed): directions are always unit length: the two initial
directions built by `normalize` have squared norm one, and a `run_ball`
advance on a well-formed grid maps any direction of squared norm one to a
direction of squared norm one (exactly, in the exact arithmetic of the
embedding), through every boundary and cell reflection it performs — at most
one boundary reflection plus one cell reflection per row. -/
theorem C6_direction_unit_norm :
    (sqNorm initState.dayball_direction = 1 ∧
      sqNorm initState.nightball_direction = 1) ∧
    (∀ {β : Type} [LinearOrderedField β] (center direction : Vec β)
      (g : Grid β) (bt : Bool) (dt : β), gridWF g →
      sqNorm direction = 1 →
      sqNorm (run_ball center direction g bt dt).2.2 = 1) := by
  constructor
  · have hs2 : Real.sqrt 2 * Real.sqrt 2 = 2 :=
      Real.mul_self_sqrt (by norm_num)
    have key : (1 / Real.sqrt 2) * (1 / Real.sqrt 2) = 1 / 2 := by
      rw [div_mul_div_comm, one_mul, hs2]
    constructor
    · rw [show initState.dayball_direction = normalize ⟨1, 1⟩ from rfl,
        normalize_diagonal.1]
      simp only [sqNorm, key]
      norm_num
    · rw [show initState.nightball_direction = normalize ⟨-1, -1⟩ from rfl,
        normalize_diagonal.2]
      have expand : sqNorm (⟨-(1 / Real.sqrt 2), -(1 / Real.sqrt 2)⟩ : Vec ℝ) =
          (1 / Real.sqrt 2) * (1 / Real.sqrt 2) +
          (1 / Real.sqrt 2) * (1 / Real.sqrt 2) := by
        simp only [sqNorm]
        ring
      rw [expand, key]
      norm_num
  · intro β instβ center direction g bt dt hwf h
    cases hb : boundaryNormal (advance_point center direction BALLSPEED dt) with
    | none =>
      rw [(run_ball_eq_scan center direction g bt dt).1 hb]
      exact scanRows_sqNorm center bt dt (List.range GRIDY) g
        (advance_point center direction BALLSPEED dt) direction h
    | some n =>
      rw [(run_ball_eq_scan center direction g bt dt).2 n hb]
      apply scanRows_sqNorm
      have hn : n.x * n.x + n.y * n.y = 1 := by
        rcases boundaryNormal_cases _ n hb with h1 | h1 | h1 | h1 <;>
          rw [h1] <;> norm_num
      rw [reflect_sqNorm direction n hn]
      exact h

/-- Witness for C6: a direction of squared norm one fed through a concrete
advance on the (well-formed) initial grid. -/
theorem C6_direction_unit_norm_witness :
    gridWF (initGrid (α := ℚ)) ∧
    sqNorm (⟨1, 0⟩ : Vec ℚ) = 1 ∧
    sqNorm (run_ball (⟨100, 100⟩ : Vec ℚ) ⟨1, 0⟩
      (initGrid (α := ℚ)) true 1).2.2 = 1 := by
  have h : sqNorm (⟨1, 0⟩ : Vec ℚ) = 1 := by norm_num [sqNorm]
  exact ⟨initGrid_wf, h, C6_direction_unit_norm.2 ⟨100, 100⟩ ⟨1, 0⟩
    (initGrid (α := ℚ)) true 1 initGrid_wf h⟩

/-- C9 (confirmed): the concrete first tick of the day ball: it starts at
`(187.5, 125)`; with dt = 1 and speed `BALLSPEED = 1/2` the boundary check
on the tentative advanced center does not trigger and no row of the cell
scan finds a collision, so `run_ball` returns the grid unchanged, the
tentative advanced center itself, and the unchanged direction; numerically
the new center is within `1/1000` of `(187.854, 125.354)`. -/
theorem C9_first_tick_day_ball :
    initState.dayball = ⟨187.5, 125⟩ ∧
    boundaryNormal (advance_point initState.dayball initState.dayball_direction
      BALLSPEED 1) = none ∧
    (∀ j ∈ List.range GRIDY,
      rowHit initState.dayball true initState.grid j = none) ∧
    run_ball initState.dayball initState.dayball_direction initState.grid true 1 =
      (initState.grid,
       advance_point initState.dayball initState.dayball_direction BALLSPEED 1,
       initState.dayball_direction) ∧
    |(advance_point initState.dayball initState.dayball_direction
        BALLSPEED 1).x - 187.854| < 1 / 1000 ∧
    |(advance_point initState.dayball initState.dayball_direction
        BALLSPEED 1).y - 125.354| < 1 / 1000 := by
  obtain ⟨hs1, hs2⟩ := sqrt_two_bounds
  have hspos : (0:ℝ) < Real.sqrt 2 := by linarith
  have hdpos : (0:ℝ) < 1 / Real.sqrt 2 := by positivity
  have hdlt : 1 / Real.sqrt 2 < 1 := by
    rw [div_lt_one hspos]
    linarith
  have hu : (1 / Real.sqrt 2) * Real.sqrt 2 = 1 :=
    one_div_mul_cancel (ne_of_gt hspos)
  have hday : initState.dayball = (⟨187.5, 125⟩ : Vec ℝ) := by
    simp only [initState]
    norm_num [GRIDX, GRIDY, RECTSIZE]
  have hdir : initState.dayball_direction =
      (⟨1 / Real.sqrt 2, 1 / Real.sqrt 2⟩ : Vec ℝ) := by
    rw [show initState.dayball_direction = normalize ⟨1, 1⟩ from rfl,
      normalize_diagonal.1]
  have htent : advance_point initState.dayball initState.dayball_direction
      BALLSPEED 1 =
      (⟨187.5 + 1 / Real.sqrt 2 * (1 / 2) * 1,
        125 + 1 / Real.sqrt 2 * (1 / 2) * 1⟩ : Vec ℝ) := by
    rw [hday, hdir]
    rfl
  have hb : boundaryNormal (advance_point initState.dayball
      initState.dayball_direction BALLSPEED 1) = none := by
    rw [htent]
    unfold boundaryNormal
    rw [if_neg (by simp only [BALLSIZE]; nlinarith),
      if_neg (by simp only [BALLSIZE]; nlinarith),
      if_neg (by simp only [BALLSIZE, RECTSIZE, GRIDX]; push_cast; nlinarith),
      if_neg (by simp only [BALLSIZE, RECTSIZE, GRIDY]; push_cast; nlinarith)]
  have hfh : ∀ j ∈ List.range GRIDY,
      rowHit initState.dayball true initState.grid j = none := by
    rw [hday, show initState.grid = initGrid from rfl]
    intro j hj
    rw [List.mem_range] at hj
    unfold rowHit
    rw [List.find?_eq_none]
    intro i hi
    rw [List.mem_range] at hi
    simp only [scanPred, initGrid_getCell j i hj hi]
    by_cases hc : i < GRIDX / 2
    · have hle : (i : ℝ) ≤ 4 := by
        have h4 : i ≤ 4 := by
          have h5 : i < 5 := by simpa [GRIDX] using hc
          omega
        exact_mod_cast h4
      have hcol : ball_rect_collision (⟨187.5, 125⟩ : Vec ℝ) BALLSIZE
          (⟨RECTSIZE * (i : ℝ), RECTSIZE * (j : ℝ), RECTSIZE, RECTSIZE⟩ :
            Rect ℝ) = none := by
        apply collision_none_of_far_right
        · norm_num [BALLSIZE]
        · simp only [Rect.right, RECTSIZE]
          nlinarith
        · simp only [Rect.right, RECTSIZE, BALLSIZE]
          nlinarith
      simp [hcol, hc]
    · simp [hc]
  have hscan : run_ball initState.dayball initState.dayball_direction
      initState.grid true 1 =
      (initState.grid,
       advance_point initState.dayball initState.dayball_direction BALLSPEED 1,
       initState.dayball_direction) := by
    rw [(run_ball_eq_scan initState.dayball initState.dayball_direction
      initState.grid true 1).1 hb]
    exact scanRows_no_hit initState.dayball true 1 (List.range GRIDY)
      initState.grid _ _ hfh
  refine ⟨hday, hb, hfh, hscan, ?_, ?_⟩
  · rw [htent]
    simp only []
    rw [abs_lt]
    constructor <;> nlinarith
  · rw [htent]
    simp only []
    rw [abs_lt]
    constructor <;> nlinarith

end DayNight
